import Mathlib

/-!
# Fitness Tracker API — verification of the authorization gate and CRUD contract

Shallow embedding of the repository's request pipeline:
* `src/middlewares/authMiddleware.js` (current revision, header `API_KEY`) and
  the earlier revision in `src/unnamed/part_000` (header `x-api-key`);
* the route handlers registered in `src/index.js` for the workout, progress and
  user families, together with a model of the Mongoose store operations they
  invoke (`find().sort`, `findByIdAndUpdate`, `findByIdAndDelete`, `save`).

JavaScript `undefined`-or-string values are embedded as `Option String`;
JS truthiness on such values is `jsFalsy`.  The Mongoose store is an
association list from `_id` strings to typed documents.
-/

namespace FitnessTracker

/-- An HTTP request as the middleware sees it: a header map plus a payload of
some type `β` (the gate never inspects the payload). HTTP header names are
case-insensitive, so lookup compares lowercased names, as Express does. -/
structure Request (β : Type) where
  headers : List (String × String)
  body : β
deriving DecidableEq

/-- ASCII lowercasing of one character, for header-name comparison. -/
def lowerChar (c : Char) : Char :=
  if 'A' ≤ c && c ≤ 'Z' then Char.ofNat (c.toNat + 32) else c

/-- ASCII lowercasing of a header name. -/
def lowerName (s : String) : String :=
  ⟨s.toList.map lowerChar⟩

/-- `req.header(name)` in Express: case-insensitive lookup, `undefined` when
the header is absent. -/
def Request.header (req : Request β) (name : String) : Option String :=
  (req.headers.find? (fun p => lowerName p.1 = lowerName name)).map (·.2)

/-- JS truthiness test on an `undefined`-or-string value: `!x` is true exactly
when `x` is `undefined` or the empty string. -/
def jsFalsy : Option String → Bool
  | none => true
  | some s => s = ""

/-- What a gate invocation produces: a short-circuit rejection response, or the
request handed to `next()`. -/
inductive GateStep (β : Type) where
  | reject (status : Nat) (message : String)
  | forward (req : Request β)
deriving DecidableEq

/-- The test `!apiKey || apiKey !== process.env.API_KEY`, textually identical
in both revisions of the middleware. -/
def gateCheck (secret apiKey : Option String) : Bool :=
  jsFalsy apiKey || apiKey ≠ secret

/-- `apiKeyMiddleware` from `src/middlewares/authMiddleware.js` (the current
revision): reads the `API_KEY` request header, rejects with
401 `Unauthorized: Invalid or missing API key` when
`!apiKey || apiKey !== process.env.API_KEY`, otherwise calls `next()` without
touching the request. `secret` is `process.env.API_KEY`. -/
def apiKeyMiddleware (secret : Option String) (req : Request β) : GateStep β :=
  if gateCheck secret (req.header "API_KEY") then
    .reject 401 "Unauthorized: Invalid or missing API key"
  else
    .forward req

/-- `apiKeyMiddleware` from `src/unnamed/part_000` (the earlier revision):
identical check, but the candidate key is read from the `x-api-key` header. -/
def apiKeyMiddleware_v0 (secret : Option String) (req : Request β) : GateStep β :=
  if gateCheck secret (req.header "x-api-key") then
    .reject 401 "Unauthorized: Invalid or missing API key"
  else
    .forward req

/-- How `console.log` renders an `undefined`-or-string argument. -/
def jsShow : Option String → String
  | none => "undefined"
  | some s => s

/-- Render a header map the way `console.log(req.headers)` would surface the
individual header values (each value string appears in the output). -/
def showHeaders (hs : List (String × String)) : List String :=
  hs.map (·.2)

/-- The strings emitted by the two `console.log` calls of the current revision
(`src/middlewares/authMiddleware.js`, lines 7-8): the candidate key from the
request, and the LENGTH of the environment secret
(`process.env.API_KEY ? process.env.API_KEY.length : 0`). -/
def gateLog (secret : Option String) (req : Request β) : List String :=
  ["API Key from request:", jsShow (req.header "API_KEY"),
   "API Key from environment variable length:",
   toString (match secret with
             | none => 0
             | some s => if s = "" then 0 else s.length)]

/-- The strings emitted by the two `console.log` calls of the earlier revision
(`src/unnamed/part_000`, lines 5-9): the VALUE of `process.env.API_KEY`
itself, and the full request header map. -/
def gateLog_v0 (secret : Option String) (req : Request β) : List String :=
  ["API_KEY in Vercel:", jsShow secret, "Request Headers:"] ++
    showHeaders req.headers

/-! ## Data model (§3 of the spec; swagger annotations in `src/index.js`) -/

/-- A persisted workout document.  `createdAt` is the store-assigned creation
timestamp (modelled as a `Nat` tick), used by `sort(\x7b createdAt: -1 \x7d)`. -/
structure Workout where
  name : String
  «type» : String
  duration : Int
  caloriesBurned : Int
  createdAt : Nat
deriving DecidableEq

/-- The JSON body accepted by `POST /api/v1/workout` (`new Workout(req.body)`). -/
structure WorkoutInput where
  name : String
  «type» : String
  duration : Int
  caloriesBurned : Int
deriving DecidableEq

/-- A JSON body for `PUT`/`PATCH /api/v1/workout/:id`: any subset of the
workout's mutable fields may be present. -/
structure WorkoutUpdate where
  name : Option String
  «type» : Option String
  duration : Option Int
  caloriesBurned : Option Int
deriving DecidableEq

/-- A persisted progress document. -/
structure Progress where
  userId : String
  weight : ℚ
  bodyFat : ℚ
  muscleMass : ℚ
  createdAt : Nat
deriving DecidableEq

/-- A persisted user document. -/
structure User where
  name : String
  age : Int
  gender : String
  email : String
  createdAt : Nat
deriving DecidableEq

/-! ## The Mongoose store, modelled

Each collection is an association list from `_id` strings to documents.
`findByIdAndUpdate` / `findByIdAndDelete` first cast the id string to an
ObjectId and throw a `CastError` (caught by the handlers as a 400) when the
cast fails; otherwise they act on the document with that id, returning `null`
when none matches. -/

/-- Modelled from Mongoose: a string casts to an ObjectId when it is 24 hex
characters (or a 12-character string). -/
def isHexDigit (c : Char) : Bool :=
  c.isDigit || ('a' ≤ c && c ≤ 'f') || ('A' ≤ c && c ≤ 'F')

/-- Modelled from Mongoose: validity of an id string for ObjectId casting. -/
def isValidObjectId (id : String) : Bool :=
  (id.toList.length = 24 && id.toList.all isHexDigit) || id.toList.length = 12

/-- Look up the document with the given `_id` (first match). -/
def lookupId (id : String) : List (String × α) → Option α
  | [] => none
  | (k, v) :: rest => if k = id then some v else lookupId id rest

/-- Overwrite every entry carrying `_id = id` with the new document. -/
def replaceId (id : String) (v : α) : List (String × α) → List (String × α)
  | [] => []
  | (k, w) :: rest =>
      if k = id then (id, v) :: replaceId id v rest
      else (k, w) :: replaceId id v rest

/-- Delete every entry carrying `_id = id`. -/
def removeId (id : String) : List (String × α) → List (String × α)
  | [] => []
  | (k, w) :: rest =>
      if k = id then removeId id rest else (k, w) :: removeId id rest

/-- Mongoose update semantics: a plain update object acts as `$set`, so each
field present in the body overwrites the stored field and each absent field
keeps its stored value; `_id` and `createdAt` are never touched. -/
def applyUpdate (w : Workout) (u : WorkoutUpdate) : Workout :=
  { name := u.name.getD w.name
    «type» := u.«type».getD w.«type»
    duration := u.duration.getD w.duration
    caloriesBurned := u.caloriesBurned.getD w.caloriesBurned
    createdAt := w.createdAt }

/-- `Workout.findByIdAndUpdate(id, body, \x7b new: true, runValidators: true \x7d)`:
`CastError` on a malformed id, otherwise `null` or the updated (post-`$set`)
document, together with the resulting collection.  The typed model has no
ill-typed field values, so `runValidators` never fails here. -/
def findByIdAndUpdate (id : String) (u : WorkoutUpdate)
    (st : List (String × Workout)) :
    Except String (Option Workout × List (String × Workout)) :=
  if isValidObjectId id then
    match lookupId id st with
    | none => .ok (none, st)
    | some w => .ok (some (applyUpdate w u), replaceId id (applyUpdate w u) st)
  else
    .error "Cast to ObjectId failed"

/-- `Workout.findByIdAndDelete(id)`: `CastError` on a malformed id, otherwise
`null` or the deleted document, together with the resulting collection. -/
def findByIdAndDelete (id : String) (st : List (String × Workout)) :
    Except String (Option Workout × List (String × Workout)) :=
  if isValidObjectId id then
    match lookupId id st with
    | none => .ok (none, st)
    | some w => .ok (some w, removeId id st)
  else
    .error "Cast to ObjectId failed"

/-! ## Resource handlers (`src/index.js`) -/

/-- The JSON response of a create/update/delete workout handler: an HTTP
status, the `message` field, and the attached entity when the handler includes
one (`workout:` on the 200/201 paths; absent on error paths and on delete). -/
structure UpdateResponse where
  status : Nat
  message : String
  workout : Option Workout
deriving DecidableEq

/-- The JSON response of a list handler: 200 with the raw entity sequence, or
500 with `\x7b message \x7d` (the body list is empty on the fault path). -/
structure ListResponse (α : Type) where
  status : Nat
  body : List α
  message : Option String
deriving DecidableEq

/-- Creation-time-descending comparison used by `sort(\x7b createdAt: -1 \x7d)`. -/
def byCreatedAtDesc (key : α → Nat) : α → α → Prop :=
  fun a b => key b ≤ key a

instance (key : α → Nat) : DecidableRel (byCreatedAtDesc key) :=
  fun a b => Nat.decLe (key b) (key a)

instance (key : α → Nat) : IsTotal α (byCreatedAtDesc key) :=
  ⟨fun a b => Nat.le_total (key b) (key a)⟩

instance (key : α → Nat) : IsTrans α (byCreatedAtDesc key) :=
  ⟨fun _ _ _ hab hbc => Nat.le_trans hbc hab⟩

/-- `find().sort(\x7b createdAt: -1 \x7d)`: all documents of the collection,
ordered newest first. -/
def findSortedDesc (key : α → Nat) (st : List (String × α)) : List α :=
  List.insertionSort (byCreatedAtDesc key) (st.map Prod.snd)

/-- `app.get('/api/v1/workout')` (lines 111-118): 200 with the sorted
collection, or 500 with the store fault's message. -/
def getWorkouts (find : Except String (List (String × Workout))) :
    ListResponse Workout :=
  match find with
  | .ok st => ⟨200, findSortedDesc Workout.createdAt st, none⟩
  | .error e => ⟨500, [], some e⟩

/-- `app.get('/api/v1/progress')` (lines 311-318). -/
def getProgress (find : Except String (List (String × Progress))) :
    ListResponse Progress :=
  match find with
  | .ok st => ⟨200, findSortedDesc Progress.createdAt st, none⟩
  | .error e => ⟨500, [], some e⟩

/-- `app.get('/api/v1/user')` (lines 350-357). -/
def getUsers (find : Except String (List (String × User))) :
    ListResponse User :=
  match find with
  | .ok st => ⟨200, findSortedDesc User.createdAt st, none⟩
  | .error e => ⟨500, [], some e⟩

/-- `app.put('/api/v1/workout/:id')` (lines 193-201). -/
def putWorkout (id : String) (body : WorkoutUpdate)
    (st : List (String × Workout)) :
    UpdateResponse × List (String × Workout) :=
  match findByIdAndUpdate id body st with
  | .error msg => (⟨400, msg, none⟩, st)
  | .ok (none, st') => (⟨404, "Workout not found", none⟩, st')
  | .ok (some w, st') => (⟨200, "Workout updated successfully!", some w⟩, st')

/-- `app.patch('/api/v1/workout/:id')` (lines 235-244). -/
def patchWorkout (id : String) (body : WorkoutUpdate)
    (st : List (String × Workout)) :
    UpdateResponse × List (String × Workout) :=
  match findByIdAndUpdate id body st with
  | .error msg => (⟨400, msg, none⟩, st)
  | .ok (none, st') => (⟨404, "Workout not found", none⟩, st')
  | .ok (some w, st') =>
      (⟨200, "Workout partially updated successfully!", some w⟩, st')

/-- `app.delete('/api/v1/workout/:id')` (lines 268-276): the `CastError` from a
malformed id is caught and mapped to 400 `Invalid workout ID`. -/
def deleteWorkout (id : String) (st : List (String × Workout)) :
    UpdateResponse × List (String × Workout) :=
  match findByIdAndDelete id st with
  | .error _ => (⟨400, "Invalid workout ID", none⟩, st)
  | .ok (none, st') => (⟨404, "Workout not found", none⟩, st')
  | .ok (some _, st') => (⟨200, "Workout deleted successfully", none⟩, st')

/-- Hex rendering of one nibble, for store-generated ObjectIds. -/
def hexDigit (n : Nat) : Char :=
  if n < 10 then Char.ofNat (48 + n) else Char.ofNat (87 + n % 16)

/-- Modelled from Mongoose: the store assigns a fresh 24-hex-character
ObjectId to each inserted document; ids are generated from a per-process
counter here. -/
def freshObjectId (n : Nat) : String :=
  ⟨((List.range 24).reverse.map (fun i => hexDigit (n / 16 ^ i % 16)))⟩

/-- `app.post('/api/v1/workout')` (lines 147-155): insert the new document
with a store-assigned id and creation timestamp; 201 with the created entity.
`tick` is the store's id/timestamp counter. -/
def postWorkout (body : WorkoutInput) (tick : Nat)
    (st : List (String × Workout)) :
    UpdateResponse × List (String × Workout) :=
  let w : Workout := ⟨body.name, body.«type», body.duration,
                      body.caloriesBurned, tick⟩
  (⟨201, "Workout added successfully!", some w⟩,
   (freshObjectId tick, w) :: st)

/-! ## Dispatcher (`src/index.js`, lines 57-59)

Every route of the three protected groups is mounted behind
`apiKeyMiddleware`; the gate either short-circuits with its 401 response or
the matching handler runs against the store. -/

/-- One request to a protected route: the verb/path choice plus its payload. -/
inductive ApiOp where
  | listWorkouts
  | createWorkout (body : WorkoutInput)
  | replaceWorkout (id : String) (body : WorkoutUpdate)
  | updateWorkout (id : String) (body : WorkoutUpdate)
  | destroyWorkout (id : String)
  | listProgress
  | listUsers
deriving DecidableEq

/-- The whole persisted state: the three collections plus the store's
id/timestamp counter. -/
structure AppState where
  workouts : List (String × Workout)
  progress : List (String × Progress)
  users : List (String × User)
  tick : Nat
deriving DecidableEq

/-- A response from any protected route (the gate's rejection included). -/
inductive ApiResponse where
  | entity (r : UpdateResponse)
  | workoutList (r : ListResponse Workout)
  | progressList (r : ListResponse Progress)
  | userList (r : ListResponse User)
  | unauthorized (status : Nat) (message : String)
deriving DecidableEq

/-- Route the forwarded request to its resource handler (fault-free store). -/
def dispatch (op : ApiOp) (st : AppState) : ApiResponse × AppState :=
  match op with
  | .listWorkouts => (.workoutList (getWorkouts (.ok st.workouts)), st)
  | .createWorkout body =>
      let (r, ws) := postWorkout body st.tick st.workouts
      (.entity r, { st with workouts := ws, tick := st.tick + 1 })
  | .replaceWorkout id body =>
      let (r, ws) := putWorkout id body st.workouts
      (.entity r, { st with workouts := ws })
  | .updateWorkout id body =>
      let (r, ws) := patchWorkout id body st.workouts
      (.entity r, { st with workouts := ws })
  | .destroyWorkout id =>
      let (r, ws) := deleteWorkout id st.workouts
      (.entity r, { st with workouts := ws })
  | .listProgress => (.progressList (getProgress (.ok st.progress)), st)
  | .listUsers => (.userList (getUsers (.ok st.users)), st)

/-- `app.use('/api/v1/...', apiKeyMiddleware, routes)`: the gate runs first;
only a forwarded request reaches a handler and hence the store. -/
def handleProtected (secret : Option String) (req : Request ApiOp)
    (st : AppState) : ApiResponse × AppState :=
  match apiKeyMiddleware secret req with
  | .reject s m => (.unauthorized s m, st)
  | .forward r => dispatch r.body st

/-! ## Sample data for concrete witnesses -/

/-- A well-formed (24 hex characters) ObjectId. -/
def sampleId : String := "0123456789abcdef01234567"

/-- A stored workout document. -/
def sampleWorkout : Workout := ⟨"Run", "cardio", 30, 300, 5⟩

/-- A one-document workout collection. -/
def sampleStore : List (String × Workout) := [(sampleId, sampleWorkout)]

/-- A partial-update body touching only `caloriesBurned`. -/
def samplePatch : WorkoutUpdate := ⟨none, none, none, some 350⟩

/-- A full replacement body. -/
def samplePut : WorkoutUpdate := ⟨some "Jog", some "cardio", some 45, some 400⟩

/-! ## Helper lemmas -/

theorem lookupId_replaceId (id : String) (v : α) (l : List (String × α)) :
    lookupId id (replaceId id v l) = (lookupId id l).map (fun _ => v) := by
  induction l with
  | nil => rfl
  | cons p rest ih =>
      obtain ⟨k, w⟩ := p
      by_cases hk : k = id
      · subst hk; simp [replaceId, lookupId]
      · simp [replaceId, lookupId, hk, ih]

theorem replaceId_replaceId (id : String) (v : α) (l : List (String × α)) :
    replaceId id v (replaceId id v l) = replaceId id v l := by
  induction l with
  | nil => rfl
  | cons p rest ih =>
      obtain ⟨k, w⟩ := p
      by_cases hk : k = id
      · subst hk; simp [replaceId, ih]
      · simp [replaceId, hk, ih]

theorem lookupId_removeId (id : String) (l : List (String × α)) :
    lookupId id (removeId id l) = none := by
  induction l with
  | nil => rfl
  | cons p rest ih =>
      obtain ⟨k, w⟩ := p
      by_cases hk : k = id
      · simp [removeId, hk, ih]
      · simp [removeId, lookupId, hk, ih]

theorem applyUpdate_idem (w : Workout) (u : WorkoutUpdate) :
    applyUpdate (applyUpdate w u) u = applyUpdate w u := by
  obtain ⟨n, t, d, c⟩ := u
  cases n <;> cases t <;> cases d <;> cases c <;> rfl

theorem gateCheck_true_of_empty_secret (secret apiKey : Option String)
    (h : secret = none ∨ secret = some "") :
    gateCheck secret apiKey = true := by
  rcases h with h | h <;> subst h
  · cases apiKey with
    | none => rfl
    | some s => simp [gateCheck, jsFalsy]
  · cases apiKey with
    | none => rfl
    | some s => by_cases hs : s = "" <;> simp [gateCheck, jsFalsy, hs]

theorem gateCheck_true_of (secret apiKey : Option String)
    (h : apiKey = none ∨ apiKey ≠ secret) :
    gateCheck secret apiKey = true := by
  rcases h with h | h
  · subst h; rfl
  · simp [gateCheck, h]

theorem gate_rejects_of (secret : Option String) (req : Request β)
    (h : req.header "API_KEY" = none ∨ req.header "API_KEY" ≠ secret) :
    apiKeyMiddleware secret req =
      .reject 401 "Unauthorized: Invalid or missing API key" := by
  simp [apiKeyMiddleware, gateCheck_true_of secret _ h]

/-! ## Claim theorems -/

/-- C1, counterexample: the claim says the gate forwards whenever the
candidate-key header is present and equal to the configured secret; but with
the secret configured as the empty string and the header present with the
empty value, the value equals the secret yet the gate rejects (JS truthiness:
`!apiKey` is true for the empty string). -/
theorem c1_counterexample :
    Request.header (⟨[("API_KEY", "")], ()⟩ : Request Unit) "API_KEY" =
        some "" ∧
    (some "" : Option String) = some "" ∧
    apiKeyMiddleware (some "") (⟨[("API_KEY", "")], ()⟩ : Request Unit) =
      .reject 401 "Unauthorized: Invalid or missing API key" := by
  refine ⟨by decide, rfl, by decide⟩

/-- C1, amended: the gate rejects with 401 and the fixed message whenever the
`API_KEY` header is absent, empty, or not equal to the configured secret; it
forwards the request itself, unchanged, exactly when the header is present
with a non-empty value equal to the secret. -/
theorem c1_gate_contract (secret : Option String) {β : Type}
    (req : Request β) :
    ((req.header "API_KEY" = none ∨ req.header "API_KEY" = some "" ∨
        req.header "API_KEY" ≠ secret) →
      apiKeyMiddleware secret req =
        .reject 401 "Unauthorized: Invalid or missing API key") ∧
    (∀ k, req.header "API_KEY" = some k → k ≠ "" → some k = secret →
      apiKeyMiddleware secret req = .forward req) := by
  constructor
  · intro h
    rcases h with h | h | h
    · simp [apiKeyMiddleware, gateCheck_true_of secret _ (Or.inl h)]
    · simp [apiKeyMiddleware, h, gateCheck, jsFalsy]
    · simp [apiKeyMiddleware, gateCheck_true_of secret _ (Or.inr h)]
  · intro k hk hne heq
    simp [apiKeyMiddleware, hk, ← heq, gateCheck, jsFalsy, hne]

/-- Witness for C1's amended theorem: with secret `"key"`, a request carrying
`API_KEY: key` is forwarded and a request without the header is rejected. -/
theorem c1_gate_contract_witness :
    apiKeyMiddleware (some "key") (⟨[("API_KEY", "key")], ()⟩ : Request Unit) =
      .forward ⟨[("API_KEY", "key")], ()⟩ ∧
    apiKeyMiddleware (some "key") (⟨[], ()⟩ : Request Unit) =
      .reject 401 "Unauthorized: Invalid or missing API key" :=
  ⟨(c1_gate_contract (some "key") _).2 "key" (by decide) (by decide) rfl,
   (c1_gate_contract (some "key") _).1 (Or.inl rfl)⟩

/-- C2: when the server-side secret is unset or the empty string, both
revisions of the gate reject every request, whatever key header it carries;
no configuration of the secret makes all keys accepted. -/
theorem c2_empty_secret_rejects (secret : Option String) {β : Type}
    (req : Request β) (h : secret = none ∨ secret = some "") :
    apiKeyMiddleware secret req =
      .reject 401 "Unauthorized: Invalid or missing API key" ∧
    apiKeyMiddleware_v0 secret req =
      .reject 401 "Unauthorized: Invalid or missing API key" := by
  exact ⟨by simp [apiKeyMiddleware, gateCheck_true_of_empty_secret secret _ h],
         by simp [apiKeyMiddleware_v0,
                  gateCheck_true_of_empty_secret secret _ h]⟩

/-- Witness for C2: with the secret unset, a request presenting an arbitrary
key under either header name is rejected by both revisions. -/
theorem c2_empty_secret_rejects_witness :
    apiKeyMiddleware none
        (⟨[("API_KEY", "guess"), ("x-api-key", "guess")], ()⟩ : Request Unit) =
      .reject 401 "Unauthorized: Invalid or missing API key" ∧
    apiKeyMiddleware_v0 none
        (⟨[("API_KEY", "guess"), ("x-api-key", "guess")], ()⟩ : Request Unit) =
      .reject 401 "Unauthorized: Invalid or missing API key" :=
  c2_empty_secret_rejects none _ (Or.inl rfl)

/-- C3: a request to a protected route that lacks the correct shared secret
is answered by the gate's 401 rejection and leaves the whole store state
(all three collections and the id counter) unchanged; no handler runs. -/
theorem c3_reject_preserves_store (secret : Option String)
    (req : Request ApiOp) (st : AppState)
    (h : req.header "API_KEY" = none ∨ req.header "API_KEY" ≠ secret) :
    handleProtected secret req st =
      (.unauthorized 401 "Unauthorized: Invalid or missing API key", st) := by
  have hr := gate_rejects_of secret req h
  simp [handleProtected, hr]

/-- Witness for C3: a delete request with a wrong key leaves the sample store
intact and yields the 401 response. -/
theorem c3_reject_preserves_store_witness :
    handleProtected (some "key")
        (⟨[("API_KEY", "wrong")], ApiOp.destroyWorkout sampleId⟩ :
          Request ApiOp)
        ⟨sampleStore, [], [], 9⟩ =
      (.unauthorized 401 "Unauthorized: Invalid or missing API key",
       ⟨sampleStore, [], [], 9⟩) :=
  c3_reject_preserves_store (some "key") _ _ (Or.inr (by decide))

/-- C4: the earlier gate revision (`src/unnamed/part_000`) logs the value of
the configured secret itself on every invocation — here the secret string is
an element of its log output even for a request with no headers at all —
while the current revision's log carries only the request's candidate key and
the secret's length. -/
theorem c4_secret_logging :
    "s3cret-token" ∈
        gateLog_v0 (some "s3cret-token") (⟨[], ()⟩ : Request Unit) ∧
    ∀ (s : String) {β : Type} (req : Request β),
      gateLog (some s) req =
        ["API Key from request:", jsShow (req.header "API_KEY"),
         "API Key from environment variable length:", toString s.length] := by
  constructor
  · simp [gateLog_v0, jsShow, showHeaders]
  · intro s β req
    have hlen : (if s = "" then 0 else s.length) = s.length := by
      by_cases hs : s = "" <;> simp [hs]
    simp [gateLog, hlen]

/-- C9: the two revisions of the gate are mutually inconsistent — a request
carrying the configured secret under `x-api-key` only is forwarded by the
earlier revision and rejected with 401 by the current one. -/
theorem c9_revisions_inconsistent :
    ∃ (secret : Option String) (req : Request Unit),
      req.header "x-api-key" = secret ∧
      req.header "API_KEY" = none ∧
      apiKeyMiddleware_v0 secret req = .forward req ∧
      apiKeyMiddleware secret req =
        .reject 401 "Unauthorized: Invalid or missing API key" :=
  ⟨some "tajna", ⟨[("x-api-key", "tajna")], ()⟩,
   by decide, by decide, by decide, by decide⟩

/-- C5: a PATCH on a stored workout succeeds with 200 and the stored entity
afterwards has each submitted field set to the submitted value and each
omitted field (and the creation timestamp) equal to its prior value. -/
theorem c5_patch_frame (st : List (String × Workout)) (id : String)
    (w : Workout) (u : WorkoutUpdate)
    (hid : isValidObjectId id = true) (hw : lookupId id st = some w) :
    ∃ w', (patchWorkout id u st).1 =
        ⟨200, "Workout partially updated successfully!", some w'⟩ ∧
      lookupId id (patchWorkout id u st).2 = some w' ∧
      (∀ v, u.name = some v → w'.name = v) ∧
      (u.name = none → w'.name = w.name) ∧
      (∀ v, u.«type» = some v → w'.«type» = v) ∧
      (u.«type» = none → w'.«type» = w.«type») ∧
      (∀ v, u.duration = some v → w'.duration = v) ∧
      (u.duration = none → w'.duration = w.duration) ∧
      (∀ v, u.caloriesBurned = some v → w'.caloriesBurned = v) ∧
      (u.caloriesBurned = none → w'.caloriesBurned = w.caloriesBurned) ∧
      w'.createdAt = w.createdAt := by
  refine ⟨applyUpdate w u, ?_, ?_, ?_, ?_, ?_, ?_, ?_, ?_, ?_, ?_, rfl⟩
  · simp [patchWorkout, findByIdAndUpdate, hid, hw]
  · simp [patchWorkout, findByIdAndUpdate, hid, hw, lookupId_replaceId]
  · intro v hv; simp [applyUpdate, hv]
  · intro hv; simp [applyUpdate, hv]
  · intro v hv; simp [applyUpdate, hv]
  · intro hv; simp [applyUpdate, hv]
  · intro v hv; simp [applyUpdate, hv]
  · intro hv; simp [applyUpdate, hv]
  · intro v hv; simp [applyUpdate, hv]
  · intro hv; simp [applyUpdate, hv]

/-- Witness for C5: patching only `caloriesBurned` on the sample store. -/
theorem c5_patch_frame_witness :
    ∃ w', (patchWorkout sampleId samplePatch sampleStore).1 =
        ⟨200, "Workout partially updated successfully!", some w'⟩ ∧
      lookupId sampleId (patchWorkout sampleId samplePatch sampleStore).2 =
        some w' ∧
      (∀ v, samplePatch.name = some v → w'.name = v) ∧
      (samplePatch.name = none → w'.name = sampleWorkout.name) ∧
      (∀ v, samplePatch.«type» = some v → w'.«type» = v) ∧
      (samplePatch.«type» = none → w'.«type» = sampleWorkout.«type») ∧
      (∀ v, samplePatch.duration = some v → w'.duration = v) ∧
      (samplePatch.duration = none → w'.duration = sampleWorkout.duration) ∧
      (∀ v, samplePatch.caloriesBurned = some v → w'.caloriesBurned = v) ∧
      (samplePatch.caloriesBurned = none →
        w'.caloriesBurned = sampleWorkout.caloriesBurned) ∧
      w'.createdAt = sampleWorkout.createdAt :=
  c5_patch_frame sampleStore sampleId sampleWorkout samplePatch
    (by decide) (by decide)

/-- C6: replacing via PUT is idempotent — running the same PUT on its own
result changes nothing: the final store and the full response (status,
message and returned entity) of the second call equal those of the first. -/
theorem c6_put_idempotent (st : List (String × Workout)) (id : String)
    (w : Workout) (u : WorkoutUpdate)
    (hid : isValidObjectId id = true) (hw : lookupId id st = some w) :
    putWorkout id u (putWorkout id u st).2 = putWorkout id u st := by
  have h1 : (putWorkout id u st).2 = replaceId id (applyUpdate w u) st := by
    simp [putWorkout, findByIdAndUpdate, hid, hw]
  have h2 : lookupId id (replaceId id (applyUpdate w u) st) =
      some (applyUpdate w u) := by
    simp [lookupId_replaceId, hw]
  rw [h1]
  simp [putWorkout, findByIdAndUpdate, hid, hw, h2, applyUpdate_idem,
        replaceId_replaceId]

/-- Witness for C6: repeating a full replacement on the sample store. -/
theorem c6_put_idempotent_witness :
    putWorkout sampleId samplePut
        (putWorkout sampleId samplePut sampleStore).2 =
      putWorkout sampleId samplePut sampleStore :=
  c6_put_idempotent sampleStore sampleId sampleWorkout samplePut
    (by decide) (by decide)

/-- C7: DELETE's status mapping — a malformed identifier yields 400 (not
404); a well-formed identifier with no matching workout yields 404; deleting
an existing workout yields 200 once and repeating the identical delete
yields 404. -/
theorem c7_delete_status_mapping :
    (∀ (id : String) (st : List (String × Workout)),
      isValidObjectId id = false → (deleteWorkout id st).1.status = 400) ∧
    (∀ (id : String) (st : List (String × Workout)),
      isValidObjectId id = true → lookupId id st = none →
      (deleteWorkout id st).1.status = 404) ∧
    (∀ (id : String) (st : List (String × Workout)) (w : Workout),
      isValidObjectId id = true → lookupId id st = some w →
      (deleteWorkout id st).1.status = 200 ∧
      (deleteWorkout id (deleteWorkout id st).2).1.status = 404) := by
  refine ⟨?_, ?_, ?_⟩
  · intro id st h
    simp [deleteWorkout, findByIdAndDelete, h]
  · intro id st h hl
    simp [deleteWorkout, findByIdAndDelete, h, hl]
  · intro id st w h hw
    have h2 : (deleteWorkout id st).2 = removeId id st := by
      simp [deleteWorkout, findByIdAndDelete, h, hw]
    constructor
    · simp [deleteWorkout, findByIdAndDelete, h, hw]
    · rw [h2]
      simp [deleteWorkout, findByIdAndDelete, h, lookupId_removeId]

/-- Witness for C7: a malformed id, an unknown well-formed id, and a
delete-then-redelete of the sample workout. -/
theorem c7_delete_status_mapping_witness :
    (deleteWorkout "bad-id!" sampleStore).1.status = 400 ∧
    (deleteWorkout sampleId []).1.status = 404 ∧
    (deleteWorkout sampleId sampleStore).1.status = 200 ∧
    (deleteWorkout sampleId
        (deleteWorkout sampleId sampleStore).2).1.status = 404 :=
  ⟨c7_delete_status_mapping.1 "bad-id!" sampleStore (by decide),
   c7_delete_status_mapping.2.1 sampleId [] (by decide) rfl,
   (c7_delete_status_mapping.2.2 sampleId sampleStore sampleWorkout
      (by decide) (by decide)).1,
   (c7_delete_status_mapping.2.2 sampleId sampleStore sampleWorkout
      (by decide) (by decide)).2⟩

/-- C8: each list handler answers 200 with the full collection (a permutation
of all stored documents) ordered by creation timestamp descending, and
answers 500 carrying the fault's message on a store fault. -/
theorem c8_list_handlers :
    (∀ ws : List (String × Workout),
      (getWorkouts (.ok ws)).status = 200 ∧
      (getWorkouts (.ok ws)).body.Perm (ws.map Prod.snd) ∧
      List.Sorted (byCreatedAtDesc Workout.createdAt)
        (getWorkouts (.ok ws)).body) ∧
    (∀ ps : List (String × Progress),
      (getProgress (.ok ps)).status = 200 ∧
      (getProgress (.ok ps)).body.Perm (ps.map Prod.snd) ∧
      List.Sorted (byCreatedAtDesc Progress.createdAt)
        (getProgress (.ok ps)).body) ∧
    (∀ us : List (String × User),
      (getUsers (.ok us)).status = 200 ∧
      (getUsers (.ok us)).body.Perm (us.map Prod.snd) ∧
      List.Sorted (byCreatedAtDesc User.createdAt)
        (getUsers (.ok us)).body) ∧
    (∀ e : String,
      getWorkouts (.error e) = ⟨500, [], some e⟩ ∧
      getProgress (.error e) = ⟨500, [], some e⟩ ∧
      getUsers (.error e) = ⟨500, [], some e⟩) := by
  refine ⟨?_, ?_, ?_, ?_⟩
  · intro ws
    exact ⟨rfl, List.perm_insertionSort _ _, List.sorted_insertionSort _ _⟩
  · intro ps
    exact ⟨rfl, List.perm_insertionSort _ _, List.sorted_insertionSort _ _⟩
  · intro us
    exact ⟨rfl, List.perm_insertionSort _ _, List.sorted_insertionSort _ _⟩
  · intro e
    exact ⟨rfl, rfl, rfl⟩

/-- C10: the PUT and PATCH workout handlers agree on status, returned entity
and resulting store for every identifier, body and store; both perform the
`$set` field-wise merge, so a body omitting fields leaves those fields at
their prior values rather than replacing the document. -/
theorem c10_put_patch_equiv (id : String) (u : WorkoutUpdate)
    (st : List (String × Workout)) :
    (putWorkout id u st).1.status = (patchWorkout id u st).1.status ∧
    (putWorkout id u st).1.workout = (patchWorkout id u st).1.workout ∧
    (putWorkout id u st).2 = (patchWorkout id u st).2 ∧
    (∀ w : Workout, isValidObjectId id = true → lookupId id st = some w →
      lookupId id (putWorkout id u st).2 = some (applyUpdate w u) ∧
      (u.name = none → (applyUpdate w u).name = w.name) ∧
      (u.«type» = none → (applyUpdate w u).«type» = w.«type») ∧
      (u.duration = none → (applyUpdate w u).duration = w.duration) ∧
      (u.caloriesBurned = none →
        (applyUpdate w u).caloriesBurned = w.caloriesBurned)) := by
  have key : ∀ (r : Except String (Option Workout × List (String × Workout))),
      findByIdAndUpdate id u st = r →
      (putWorkout id u st).1.status = (patchWorkout id u st).1.status ∧
      (putWorkout id u st).1.workout = (patchWorkout id u st).1.workout ∧
      (putWorkout id u st).2 = (patchWorkout id u st).2 := by
    intro r hr
    rcases r with e | ⟨ow, st'⟩
    · simp [putWorkout, patchWorkout, hr]
    · rcases ow with _ | w' <;> simp [putWorkout, patchWorkout, hr]
  refine ⟨(key _ rfl).1, (key _ rfl).2.1, (key _ rfl).2.2, ?_⟩
  intro w hid hw
  refine ⟨?_, ?_, ?_, ?_, ?_⟩
  · simp [putWorkout, findByIdAndUpdate, hid, hw, lookupId_replaceId]
  · intro h; simp [applyUpdate, h]
  · intro h; simp [applyUpdate, h]
  · intro h; simp [applyUpdate, h]
  · intro h; simp [applyUpdate, h]

/-- Witness for C10: PUT and PATCH agree on the sample store, and the merged
document is what PUT stores. -/
theorem c10_put_patch_equiv_witness :
    (putWorkout sampleId samplePut sampleStore).1.status =
      (patchWorkout sampleId samplePut sampleStore).1.status ∧
    lookupId sampleId (putWorkout sampleId samplePut sampleStore).2 =
      some (applyUpdate sampleWorkout samplePut) :=
  ⟨(c10_put_patch_equiv sampleId samplePut sampleStore).1,
   ((c10_put_patch_equiv sampleId samplePut sampleStore).2.2.2 sampleWorkout
      (by decide) (by decide)).1⟩

end FitnessTracker
